import Mathlib

/-!
Shallow embedding of the sensor acquisition pipeline (vent/io/devices/sensors.py)
and the alarm lifecycle entity (vent/alarm/alarm.py), with theorems settling the
frozen claims about them. Readings and timestamps are modelled as rationals and
the numpy observation array as a fixed-length list.
-/

set_option maxRecDepth 20000
set_option linter.unusedVariables false

namespace Vent

/-- State of the generic Sensor engine: the circular observation array, the
write cursor, the configured capacity, and the timestamp of the last
successful update, with -1 as the never-updated sentinel. -/
structure SensorState where
  data : List ℚ
  i : ℕ
  dataLength : ℕ
  lastTimestamp : ℚ
deriving DecidableEq

/-- The class constant DEFAULT_STORED_OBSERVATIONS. -/
def Sensor.DEFAULT_STORED_OBSERVATIONS : ℕ := 128

/-- Sensor construction: a zero array of the default length, cursor 0, and the
never-updated timestamp sentinel. -/
def Sensor.init : SensorState :=
  { data := List.replicate Sensor.DEFAULT_STORED_OBSERVATIONS 0,
    i := 0,
    dataLength := Sensor.DEFAULT_STORED_OBSERVATIONS,
    lastTimestamp := -1 }

/-- The private store method: write the value at the cursor and advance the
cursor modulo the capacity. -/
def Sensor.storeLast (s : SensorState) (value : ℚ) : SensorState :=
  { s with data := s.data.set s.i value, i := (s.i + 1) % s.dataLength }

/-- The capability set a sensor variant implements: raw_read may consult the
sensor state and advance device state, convert reads device state, verify may
advance device state. -/
structure Device (σ : Type) where
  rawRead : σ → SensorState → ℚ × σ
  convert : σ → ℚ → ℚ
  verify : σ → ℚ → Bool × σ

/-- Sensor.update as written in the source: convert a raw reading, verify it,
on success store it and stamp the time, then return the result of a second
verify invocation. -/
def Sensor.update (dev : Device σ) (now : ℚ) (s : SensorState) (d : σ) :
    Bool × SensorState × σ :=
  let rd := dev.rawRead d s
  let value := dev.convert rd.2 rd.1
  let v1 := dev.verify rd.2 value
  let s1 := if v1.1 then
    { Sensor.storeLast s value with lastTimestamp := now }
  else s
  let v2 := dev.verify v1.2 value
  (v2.1, s1, v2.2)

/-- Sensor.get: none models the raised runtime error on the sentinel; otherwise
the slot one before the cursor, modulo the capacity. -/
def Sensor.get (s : SensorState) : Option ℚ :=
  if s.lastTimestamp = -1 then none
  else some (s.data.getD ((s.i + s.dataLength - 1) % s.dataLength) 0)

/-- Sensor.age: seconds since the last successful update, or -1 if never. -/
def Sensor.age (now : ℚ) (s : SensorState) : ℚ :=
  if s.lastTimestamp = -1 then -1 else now - s.lastTimestamp

/-- Sensor.reset: a fresh zero array of the current capacity and cursor 0; the
timestamp is not touched. -/
def Sensor.reset (s : SensorState) : SensorState :=
  { s with data := List.replicate s.dataLength 0, i := 0 }

/-- The data_length setter: record the new capacity, then reset. -/
def Sensor.setDataLength (s : SensorState) (n : ℕ) : SensorState :=
  Sensor.reset { s with dataLength := n }

/-- The data property: roll the array so the slot at the cursor comes first,
then keep only the entries that are nonzero, as rolled.astype(bool) indexing
does. -/
def Sensor.data (s : SensorState) : List ℚ :=
  let rolled := s.data.drop s.i ++ s.data.take s.i
  rolled.filter (fun x => x != 0)

/-- State of the simulated sensor: the configured bounds and the stream of
pseudo-random draws that successive random() calls consume. -/
structure SimState where
  low : ℚ
  high : ℚ
  draws : List ℚ
deriving DecidableEq

/-- One random() call: the next element of the stream. -/
def SimState.draw (d : SimState) : ℚ × SimState :=
  (d.draws.headD 0, { d with draws := d.draws.tail })

/-- SimSensor raw_read: a uniform draw over the configured range when the
cursor is at zero, otherwise a random step away from the latest reading. -/
def SimSensor.rawRead (d : SimState) (s : SensorState) : ℚ × SimState :=
  let r := d.draw
  if s.i = 0 then (d.low + r.1 * d.high, r.2)
  else ((Sensor.get s).getD 0 + r.1 * (d.high / 100), r.2)

/-- SimSensor verify: false exactly when the drawn random exceeds 0.999. -/
def SimSensor.verify (d : SimState) (value : ℚ) : Bool × SimState :=
  let r := d.draw
  (if r.1 > 999 / 1000 then false else true, r.2)

/-- SimSensor convert: the identity. -/
def SimSensor.convert (d : SimState) (raw : ℚ) : ℚ := raw

/-- The simulated sensor as a capability set. -/
def SimSensor.device : Device SimState :=
  { rawRead := SimSensor.rawRead,
    convert := SimSensor.convert,
    verify := SimSensor.verify }

/-- Instrumentation: the same device with a counter that increments on every
verify invocation, so the number of verify calls per update is observable. -/
def countingDevice (dev : Device σ) : Device (σ × ℕ) :=
  { rawRead := fun d s => ((dev.rawRead d.1 s).1, ((dev.rawRead d.1 s).2, d.2)),
    convert := fun d r => dev.convert d.1 r,
    verify := fun d v => ((dev.verify d.1 v).1, ((dev.verify d.1 v).2, d.2 + 1)) }

/-- Calibration state of the analog sensor. -/
structure AnalogState where
  offset_voltage : ℚ
  output_span : ℚ
  conversion_factor : ℚ
deriving DecidableEq

/-- The class constant DEFAULT_CALIBRATION. -/
def AnalogSensor.DEFAULT_CALIBRATION : AnalogState :=
  { offset_voltage := 0, output_span := 5, conversion_factor := 1 }

/-- AnalogSensor convert: scale the raw voltage by the calibration state. -/
def AnalogSensor.convert (a : AnalogState) (raw : ℚ) : ℚ :=
  a.conversion_factor * (raw - a.offset_voltage) / a.output_span

/-- AnalogSensor verify: accept iff value / conversion_factor lies in the unit
range; on rejection, lower offset_voltage with the converted value and then
widen output_span using the already-updated offset, still reporting failure. -/
def AnalogSensor.verify (a : AnalogState) (value : ℚ) : Bool × AnalogState :=
  let report := decide (0 ≤ value / a.conversion_factor ∧ value / a.conversion_factor ≤ 1)
  if report then (true, a)
  else
    let a1 : AnalogState := { a with offset_voltage := min a.offset_voltage value }
    let a2 : AnalogState := { a1 with output_span := max a1.output_span (value - a1.offset_voltage) }
    (false, a2)

/-- AnalogSensor inherits the base reset unchanged: only the observation array
and the cursor are reassigned, the calibration attributes are untouched. -/
def AnalogSensor.reset (p : SensorState × AnalogState) : SensorState × AnalogState :=
  (Sensor.reset p.1, p.2)

/-- The class constant FLOW_OFFSET of the digital flow sensor. -/
def SFM3200.FLOW_OFFSET : ℤ := 32768

/-- The class constant FLOW_SCALE_FACTOR of the digital flow sensor. -/
def SFM3200.FLOW_SCALE_FACTOR : ℤ := 120

/-- SFM3200 convert: offset and scale the signed integer reading into standard
liters per minute. -/
def SFM3200.convert (raw : ℤ) : ℚ :=
  ((raw : ℚ) - (SFM3200.FLOW_OFFSET : ℚ)) / (SFM3200.FLOW_SCALE_FACTOR : ℚ)

/-- SFM3200 verify: always true, the onboard chip is trusted. -/
def SFM3200.verify (value : ℚ) : Bool := true

/-- Modelled from the spec: the AlarmSeverity enumeration imported from
vent.alarm is not among the given sources; the spec only distinguishes the OFF
severity from the others. -/
inductive AlarmSeverity where
  | OFF
  | LOW
  | MEDIUM
  | HIGH
deriving DecidableEq

/-- Modelled from the spec: the AlarmType enumeration imported from vent.alarm
is not among the given sources; the spec treats it as an enumerated variant. -/
inductive AlarmType where
  | HIGH_PRESSURE
  | LOW_PRESSURE
  | GENERIC
deriving DecidableEq

/-- The alarm entity: identity, severity and type, lifecycle fields, and the
optional payload fields. -/
structure Alarm where
  id : ℕ
  severity : AlarmSeverity
  alarm_type : AlarmType
  start_time : ℚ
  active : Bool
  end_time : Option ℚ
  value : Option ℚ
  message : Option String
  latch : Bool
  persistent : Bool
deriving DecidableEq

/-- Alarm construction given the id drawn from the counter: active starts true
and is set back to false when the severity is OFF; end_time starts absent. -/
def Alarm.construct (id : ℕ) (alarm_type : AlarmType) (severity : AlarmSeverity)
    (start_time : ℚ) (latch : Bool) (persistent : Bool)
    (value : Option ℚ) (message : Option String) : Alarm :=
  { id := id, severity := severity, alarm_type := alarm_type,
    start_time := start_time,
    active := if severity = AlarmSeverity.OFF then false else true,
    end_time := none, value := value, message := message,
    latch := latch, persistent := persistent }

/-- Alarm.deactivate: return unchanged when already inactive, otherwise record
the end time and clear the active flag. -/
def Alarm.deactivate (now : ℚ) (a : Alarm) : Alarm :=
  if a.active = false then a
  else { a with end_time := some now, active := false }

/-- A sequence of deactivation calls at the given times, oldest first. -/
def Alarm.deactivateAll (ts : List ℚ) (a : Alarm) : Alarm :=
  ts.foldl (fun b t => Alarm.deactivate t b) a

/-- One step of the process-wide id counter: the returned id and the advanced
counter, as next on the itertools counter behaves. -/
def AlarmCounter.next (c : ℕ) : ℕ × ℕ := (c, c + 1)

/-- Constructing an alarm draws its id from the process-wide counter. -/
def Alarm.makeAlarm (c : ℕ) (ty : AlarmType) (sev : AlarmSeverity) (st : ℚ) :
    Alarm × ℕ :=
  let n := AlarmCounter.next c
  (Alarm.construct n.1 ty sev st true true none none, n.2)

/-- A sequence of alarm constructions threading the counter. -/
def Alarm.constructSeq (c : ℕ) :
    List (AlarmType × AlarmSeverity × ℚ) → List Alarm × ℕ
  | [] => ([], c)
  | s :: rest =>
    let p := Alarm.makeAlarm c s.1 s.2.1 s.2.2
    let q := Alarm.constructSeq p.2 rest
    (p.1 :: q.1, q.2)

/-! Helper lemmas shared by the claim theorems. -/

theorem filter_ne_zero_replicate (n : ℕ) :
    (List.replicate n (0 : ℚ)).filter (fun x => x != 0) = [] := by
  induction n with
  | zero => rfl
  | succ m ih => simp [List.replicate_succ, List.filter, ih]

theorem getD_replicate_zero (n k : ℕ) :
    (List.replicate n (0 : ℚ)).getD k 0 = 0 := by
  induction n generalizing k with
  | zero => simp [List.getD]
  | succ m ih =>
    cases k with
    | zero => simp [List.replicate_succ]
    | succ j => simp [List.replicate_succ, ih j]

theorem deactivate_preserves_endInv (t : ℚ) (a : Alarm)
    (h : a.end_time ≠ none ↔ a.active = false) :
    (Alarm.deactivate t a).end_time ≠ none ↔ (Alarm.deactivate t a).active = false := by
  unfold Alarm.deactivate
  by_cases ha : a.active = false
  · simpa [ha] using h
  · simp [ha]

theorem deactivateAll_preserves_endInv (ts : List ℚ) (a : Alarm)
    (h : a.end_time ≠ none ↔ a.active = false) :
    (Alarm.deactivateAll ts a).end_time ≠ none ↔ (Alarm.deactivateAll ts a).active = false := by
  induction ts generalizing a with
  | nil => exact h
  | cons t ts ih =>
    have step : Alarm.deactivateAll (t :: ts) a = Alarm.deactivateAll ts (Alarm.deactivate t a) := rfl
    rw [step]
    exact ih (Alarm.deactivate t a) (deactivate_preserves_endInv t a h)

theorem deactivateAll_inactive (ts : List ℚ) (a : Alarm) (h : a.active = false) :
    Alarm.deactivateAll ts a = a := by
  induction ts generalizing a with
  | nil => rfl
  | cons t ts ih =>
    have step : Alarm.deactivateAll (t :: ts) a = Alarm.deactivateAll ts (Alarm.deactivate t a) := rfl
    have noop : Alarm.deactivate t a = a := by simp [Alarm.deactivate, h]
    rw [step, noop]
    exact ih a h

theorem constructSeq_ids (c : ℕ) (specs : List (AlarmType × AlarmSeverity × ℚ)) :
    ((Alarm.constructSeq c specs).1).map Alarm.id = List.range' c specs.length := by
  induction specs generalizing c with
  | nil => rfl
  | cons s rest ih =>
    simp [Alarm.constructSeq, Alarm.makeAlarm, AlarmCounter.next, Alarm.construct,
      List.range'_succ, ih]

/-! Claim theorems. -/

/-- Claim C1, refuted on the code: the data property filters out exact-zero
slots, so a buffer of capacity 2 holding one pushed observation 0 yields an
empty sequence instead of the single value the claim requires. -/
theorem thmC1_zero_observation_dropped :
    Sensor.data (Sensor.storeLast (Sensor.setDataLength Sensor.init 2) 0) = [] ∧
    Sensor.data (Sensor.storeLast (Sensor.setDataLength Sensor.init 2) 0) ≠ [0] := by
  decide

/-- Claim C2, refuted on the code: running update with any device whose verify
invocations are counted shows that every single update call invokes verify
exactly twice, once to gate storage and once to produce the return value, so
the result is not cached and verify is not invoked exactly once. -/
theorem thmC2_verify_invoked_twice (dev : Device σ) (s : SensorState) (d : σ)
    (k : ℕ) (now : ℚ) :
    (Sensor.update (countingDevice dev) now s (d, k)).2.2.2 = k + 2 := rfl

/-- Claim C3, refuted on the code: with the simulated sensor at capacity 4 and
random draws 1/2, 1/2, 1, the first verify call accepts so the reading 50 is
stored and the timestamp stamped, but the second verify call fails, so update
returns false while the buffer slot, the cursor and the timestamp all changed
from their pre-call values. -/
theorem thmC3_store_despite_false_return :
    (Sensor.update SimSensor.device 100 (Sensor.setDataLength Sensor.init 4)
        { low := 0, high := 100, draws := [1/2, 1/2, 1] }).1 = false ∧
    Sensor.get (Sensor.update SimSensor.device 100 (Sensor.setDataLength Sensor.init 4)
        { low := 0, high := 100, draws := [1/2, 1/2, 1] }).2.1 = some 50 ∧
    (Sensor.update SimSensor.device 100 (Sensor.setDataLength Sensor.init 4)
        { low := 0, high := 100, draws := [1/2, 1/2, 1] }).2.1.i = 1 ∧
    (Sensor.update SimSensor.device 100 (Sensor.setDataLength Sensor.init 4)
        { low := 0, high := 100, draws := [1/2, 1/2, 1] }).2.1.lastTimestamp = 100 ∧
    (Sensor.setDataLength Sensor.init 4).i = 0 ∧
    Sensor.get (Sensor.setDataLength Sensor.init 4) = none ∧
    (Sensor.setDataLength Sensor.init 4).lastTimestamp = -1 := by
  norm_num [Sensor.update, SimSensor.device, SimSensor.rawRead, SimSensor.verify,
    SimSensor.convert, SimState.draw, Sensor.storeLast, Sensor.get, Sensor.setDataLength,
    Sensor.reset, Sensor.init, Sensor.DEFAULT_STORED_OBSERVATIONS, List.getD,
    List.replicate_succ]

/-- Claim C4, counterexample: with the default calibration, the raw reading -5
converts to -1, verify rejects it, and the new offset_voltage is -1, the
minimum of the old offset and the converted value, which is not at most
min(offset_voltage_before, raw) = -5 as the claim requires. -/
theorem thmC4_offset_uses_converted_value :
    (AnalogSensor.verify AnalogSensor.DEFAULT_CALIBRATION
        (AnalogSensor.convert AnalogSensor.DEFAULT_CALIBRATION (-5))).1 = false ∧
    ¬ ((AnalogSensor.verify AnalogSensor.DEFAULT_CALIBRATION
        (AnalogSensor.convert AnalogSensor.DEFAULT_CALIBRATION (-5))).2.offset_voltage
        ≤ min AnalogSensor.DEFAULT_CALIBRATION.offset_voltage (-5)) := by
  norm_num [AnalogSensor.verify, AnalogSensor.convert, AnalogSensor.DEFAULT_CALIBRATION]

/-- Claim C4 as amended: verify accepts iff value / conversion_factor lies in
the unit range; on rejection offset_voltage becomes the minimum of the old
offset and the converted value, output_span the maximum of the old span and
the converted value minus the updated offset, the reading is still reported
as failed, the offset never increases and the span never decreases; on
acceptance the calibration state is unchanged. -/
theorem thmC4_amended_adaptive_recalibration (a : AnalogState) (v : ℚ) :
    ((AnalogSensor.verify a v).1 = true ↔
      (0 ≤ v / a.conversion_factor ∧ v / a.conversion_factor ≤ 1)) ∧
    ((AnalogSensor.verify a v).1 = false →
      (AnalogSensor.verify a v).2.offset_voltage = min a.offset_voltage v ∧
      (AnalogSensor.verify a v).2.output_span = max a.output_span (v - min a.offset_voltage v) ∧
      (AnalogSensor.verify a v).2.offset_voltage ≤ a.offset_voltage ∧
      a.output_span ≤ (AnalogSensor.verify a v).2.output_span) ∧
    ((AnalogSensor.verify a v).1 = true → (AnalogSensor.verify a v).2 = a) := by
  unfold AnalogSensor.verify
  by_cases h : (0 ≤ v / a.conversion_factor ∧ v / a.conversion_factor ≤ 1)
  · simp [h]
  · simp [h]

/-- Witness for the amended claim C4 at the default calibration and the
converted value -1: the rejection branch fires and lowers the offset. -/
theorem thmC4_amended_adaptive_recalibration_witness :
    (AnalogSensor.verify AnalogSensor.DEFAULT_CALIBRATION (-1)).2.offset_voltage =
      min AnalogSensor.DEFAULT_CALIBRATION.offset_voltage (-1) :=
  ((thmC4_amended_adaptive_recalibration AnalogSensor.DEFAULT_CALIBRATION (-1)).2.1
    (by norm_num [AnalogSensor.verify, AnalogSensor.DEFAULT_CALIBRATION])).1

/-- Claim C5: deactivate is the identity on an inactive alarm; on an active
alarm it records the end time and clears the active flag; a second deactivate
at any later time leaves the alarm exactly as the first call left it, so the
end time set by the first call survives. -/
theorem thmC5_deactivate_idempotent (a : Alarm) (t1 t2 : ℚ) :
    (a.active = false → Alarm.deactivate t1 a = a) ∧
    (a.active = true →
      (Alarm.deactivate t1 a).end_time = some t1 ∧
      (Alarm.deactivate t1 a).active = false) ∧
    Alarm.deactivate t2 (Alarm.deactivate t1 a) = Alarm.deactivate t1 a := by
  unfold Alarm.deactivate
  by_cases h : a.active = false <;> simp [h]

/-- Witness for claim C5 on a concrete active alarm deactivated at times 1 and
then 2: the end time stays at 1 and the second call changes nothing. -/
theorem thmC5_deactivate_idempotent_witness :
    (Alarm.deactivate 1 (Alarm.construct 0 AlarmType.GENERIC AlarmSeverity.HIGH 0
        true true none none)).end_time = some 1 ∧
    Alarm.deactivate 2 (Alarm.deactivate 1 (Alarm.construct 0 AlarmType.GENERIC
        AlarmSeverity.HIGH 0 true true none none)) =
      Alarm.deactivate 1 (Alarm.construct 0 AlarmType.GENERIC AlarmSeverity.HIGH 0
        true true none none) := by
  have h := thmC5_deactivate_idempotent
    (Alarm.construct 0 AlarmType.GENERIC AlarmSeverity.HIGH 0 true true none none) 1 2
  exact ⟨(h.2.1 (by decide)).1, h.2.2⟩

/-- Claim C6, counterexample: an alarm constructed with severity OFF starts
with active already false while end_time is still absent, so end_time present
iff not active fails in a reachable state. -/
theorem thmC6_off_alarm_breaks_invariant :
    ¬ (((Alarm.construct 0 AlarmType.GENERIC AlarmSeverity.OFF 0 true true
          none none).end_time ≠ none) ↔
       ((Alarm.construct 0 AlarmType.GENERIC AlarmSeverity.OFF 0 true true
          none none).active = false)) := by
  decide

/-- Claim C6 as amended: an alarm starts active exactly when its severity is
not OFF; for those alarms the invariant that end_time is present iff the
alarm is inactive holds after every sequence of deactivate calls; an alarm
constructed with severity OFF starts inactive and keeps end_time absent and
the active flag false through every sequence of deactivate calls. -/
theorem thmC6_amended_lifecycle_invariant (ty : AlarmType) (sev : AlarmSeverity)
    (st : ℚ) (l p : Bool) (v : Option ℚ) (m : Option String) (idv : ℕ) (ts : List ℚ) :
    ((Alarm.construct idv ty sev st l p v m).active = true ↔ sev ≠ AlarmSeverity.OFF) ∧
    (sev ≠ AlarmSeverity.OFF →
      ((Alarm.deactivateAll ts (Alarm.construct idv ty sev st l p v m)).end_time ≠ none ↔
       (Alarm.deactivateAll ts (Alarm.construct idv ty sev st l p v m)).active = false)) ∧
    (sev = AlarmSeverity.OFF →
      (Alarm.deactivateAll ts (Alarm.construct idv ty sev st l p v m)).end_time = none ∧
      (Alarm.deactivateAll ts (Alarm.construct idv ty sev st l p v m)).active = false) := by
  refine ⟨?_, ?_, ?_⟩
  · by_cases h : sev = AlarmSeverity.OFF <;> simp [Alarm.construct, h]
  · intro h
    refine deactivateAll_preserves_endInv ts _ ?_
    simp [Alarm.construct, h]
  · intro h
    have hin : (Alarm.construct idv ty sev st l p v m).active = false := by
      simp [Alarm.construct, h]
    rw [deactivateAll_inactive ts _ hin]
    exact ⟨rfl, hin⟩

/-- Witness for the amended claim C6 on a concrete HIGH severity alarm
deactivated once: the invariant holds after the call. -/
theorem thmC6_amended_lifecycle_invariant_witness :
    (Alarm.deactivateAll [1] (Alarm.construct 0 AlarmType.GENERIC AlarmSeverity.HIGH 0
        true true none none)).end_time ≠ none ↔
    (Alarm.deactivateAll [1] (Alarm.construct 0 AlarmType.GENERIC AlarmSeverity.HIGH 0
        true true none none)).active = false :=
  (thmC6_amended_lifecycle_invariant AlarmType.GENERIC AlarmSeverity.HIGH 0 true true
    none none 0 [1]).2.1 (by decide)

/-- Claim C7: the ids handed out by a sequence of constructions threaded
through the process-wide counter are strictly increasing in allocation order,
hence pairwise distinct, and deactivation, the only mutator, never changes an
alarm id. -/
theorem thmC7_ids_strictly_increasing (c : ℕ)
    (specs : List (AlarmType × AlarmSeverity × ℚ)) :
    List.Pairwise (fun x y => x < y) (((Alarm.constructSeq c specs).1).map Alarm.id) ∧
    (((Alarm.constructSeq c specs).1).map Alarm.id).Nodup ∧
    (∀ a : Alarm, ∀ t : ℚ, (Alarm.deactivate t a).id = a.id) := by
  refine ⟨?_, ?_, ?_⟩
  · rw [constructSeq_ids]
    exact List.pairwise_lt_range' c specs.length
  · rw [constructSeq_ids]
    exact (List.pairwise_lt_range' c specs.length).imp Nat.ne_of_lt
  · intro a t
    unfold Alarm.deactivate
    by_cases h : a.active = false <;> simp [h]

/-- Claim C8: get returns nothing exactly when the last-update timestamp still
holds the never-updated sentinel, which is how the code records that no update
has ever succeeded, so in particular a freshly constructed sensor fails; in
every other state get returns the buffer slot one before the cursor modulo
the capacity. -/
theorem thmC8_get_latest (s : SensorState) :
    Sensor.get Sensor.init = none ∧
    (Sensor.get s = none ↔ s.lastTimestamp = -1) ∧
    (s.lastTimestamp ≠ -1 →
      Sensor.get s = some (s.data.getD ((s.i + s.dataLength - 1) % s.dataLength) 0)) := by
  refine ⟨by simp [Sensor.get, Sensor.init], ?_, ?_⟩
  · unfold Sensor.get
    by_cases h : s.lastTimestamp = -1 <;> simp [h]
  · intro h
    simp [Sensor.get, h]

/-- Witness for claim C8 on a concrete updated single-slot sensor state: get
returns the stored slot. -/
theorem thmC8_get_latest_witness :
    Sensor.get { data := [7], i := 1, dataLength := 1, lastTimestamp := 5 } =
      some (([7] : List ℚ).getD ((1 + 1 - 1) % 1) 0) :=
  (thmC8_get_latest { data := [7], i := 1, dataLength := 1, lastTimestamp := 5 }).2.2
    (by norm_num)

/-- Claim C9: the digital flow sensor conversion subtracts the flow offset
32768 and divides by the scale factor 120, sending 32768 to 0 and 32888 to 1,
and its verify accepts every value. -/
theorem thmC9_sfm_convert (raw : ℤ) :
    SFM3200.convert raw = ((raw : ℚ) - 32768) / 120 ∧
    SFM3200.convert 32768 = 0 ∧
    SFM3200.convert (32768 + 120) = 1 ∧
    (∀ v : ℚ, SFM3200.verify v = true) := by
  refine ⟨rfl, ?_, ?_, fun v => rfl⟩
  · norm_num [SFM3200.convert, SFM3200.FLOW_OFFSET, SFM3200.FLOW_SCALE_FACTOR]
  · norm_num [SFM3200.convert, SFM3200.FLOW_OFFSET, SFM3200.FLOW_SCALE_FACTOR]

/-- Claim C10: after a successful update, reset empties the reported data
sequence, leaves get succeeding with the zeroed slot, keeps the timestamp so
age still measures from the pre-reset update, and the analog calibration
state is untouched because reset only reassigns the array and the cursor. -/
theorem thmC10_reset_keeps_timestamp (s : SensorState) (a : AnalogState) (now : ℚ)
    (h : s.lastTimestamp ≠ -1) :
    Sensor.data (Sensor.reset s) = [] ∧
    Sensor.get (Sensor.reset s) = some 0 ∧
    Sensor.age now (Sensor.reset s) = now - s.lastTimestamp ∧
    (Sensor.reset s).lastTimestamp = s.lastTimestamp ∧
    (AnalogSensor.reset (s, a)).2 = a := by
  refine ⟨?_, ?_, ?_, rfl, rfl⟩
  · simp [Sensor.data, Sensor.reset, filter_ne_zero_replicate]
  · simp [Sensor.get, Sensor.reset, h, getD_replicate_zero]
  · simp [Sensor.age, Sensor.reset, h]

/-- Witness for claim C10 on a concrete updated single-slot sensor state with
the default analog calibration. -/
theorem thmC10_reset_keeps_timestamp_witness :
    Sensor.data (Sensor.reset { data := [3], i := 1, dataLength := 1, lastTimestamp := 2 }) = [] ∧
    Sensor.get (Sensor.reset { data := [3], i := 1, dataLength := 1, lastTimestamp := 2 }) = some 0 ∧
    Sensor.age 10 (Sensor.reset { data := [3], i := 1, dataLength := 1, lastTimestamp := 2 }) =
      10 - (2 : ℚ) ∧
    (Sensor.reset { data := [3], i := 1, dataLength := 1, lastTimestamp := 2 }).lastTimestamp =
      ({ data := [3], i := 1, dataLength := 1, lastTimestamp := 2 } : SensorState).lastTimestamp ∧
    (AnalogSensor.reset ({ data := [3], i := 1, dataLength := 1, lastTimestamp := 2 },
        AnalogSensor.DEFAULT_CALIBRATION)).2 = AnalogSensor.DEFAULT_CALIBRATION :=
  thmC10_reset_keeps_timestamp { data := [3], i := 1, dataLength := 1, lastTimestamp := 2 }
    AnalogSensor.DEFAULT_CALIBRATION 10 (by norm_num)

end Vent
